import Mathlib

/-!
Verification development for the `clarity` repository.

The embedded program is the heuristic website analyzer in `lib/analyzer.ts`.
Texts are modelled as `List Char`, JavaScript numbers as exact rationals
(`ℚ`), thrown exceptions as `Except`, and the parsed DOM (`cheerio` document)
as a structure `Doc` whose fields hold the results of the primitive DOM
queries the analyzer performs (tag counts, attribute values, element texts).
-/

/-! ## Text utilities (JavaScript string primitives) -/

/-- A character matched by the regex class `\s` (ASCII part). -/
def isWsChar (c : Char) : Bool :=
  c == ' ' || c == '\t' || c == '\n' || c == '\r' || c == '\x0b' || c == '\x0c'

/-- A sentence-ending character from the regex class `[.!?]`. -/
def isSentenceEnd (c : Char) : Bool :=
  c == '.' || c == '!' || c == '?'

/-- Worker for `jsSplitRuns`: `inRun` records whether the previous character
belonged to a separator run, `acc` the (reversed) current segment. -/
def jsSplitGo (p : Char → Bool) : List Char → Bool → List Char → List (List Char)
  | [], true, _ => [[]]
  | [], false, acc => [acc.reverse]
  | c :: cs, true, _ =>
      if p c then jsSplitGo p cs true []
      else jsSplitGo p cs false [c]
  | c :: cs, false, acc =>
      if p c then acc.reverse :: jsSplitGo p cs true []
      else jsSplitGo p cs false (c :: acc)

/-- JavaScript `str.split(/X+/)`: split on maximal runs of characters
satisfying `p`.  Like the JS method, a leading or trailing run produces an
empty segment, and the empty string yields `[""]`. -/
def jsSplitRuns (p : Char → Bool) (s : List Char) : List (List Char) :=
  jsSplitGo p s false []

/-- JavaScript `str.split(sep)` for a single-character separator: split at
every occurrence of `sep` (no run merging). -/
def jsSplitChar (sep : Char) : List Char → List (List Char)
  | [] => [[]]
  | c :: cs =>
      if c == sep then [] :: jsSplitChar sep cs
      else
        match jsSplitChar sep cs with
        | t :: ts => (c :: t) :: ts
        | [] => [[c]]

/-- JavaScript `str.toLowerCase()` (ASCII component). -/
def toLowerList (s : List Char) : List Char :=
  s.map Char.toLower

/-- Does `a` start with the list `pre`? (JS `str.startsWith`). -/
def startsWithList : List Char → List Char → Bool
  | [], _ => true
  | _ :: _, [] => false
  | p :: ps, c :: cs => p == c && startsWithList ps cs

/-- JavaScript `str.indexOf(needle)`, as an option instead of `-1`. -/
def indexOfSub (needle : List Char) : List Char → Option Nat
  | [] => if startsWithList needle [] then some 0 else none
  | c :: t =>
      if startsWithList needle (c :: t) then some 0
      else (indexOfSub needle t).map (· + 1)

/-- JavaScript `str.includes(needle)`. -/
def includesSub (needle hay : List Char) : Bool :=
  (indexOfSub needle hay).isSome

/-- JavaScript `Math.round`: round half toward positive infinity. -/
def jsRound (x : ℚ) : ℤ :=
  Int.floor (x + 1/2)

/-- First-occurrence-order deduplication worker (JS `new Set(xs)`). -/
def dedupFirstAux (seen : List ℤ) : List ℤ → List ℤ
  | [] => []
  | x :: xs =>
      if x ∈ seen then dedupFirstAux seen xs
      else x :: dedupFirstAux (x :: seen) xs

/-- JavaScript `Array.from(new Set(xs))`: first occurrences, in order. -/
def dedupFirst (l : List ℤ) : List ℤ :=
  dedupFirstAux [] l

/-! ## Scoring methods (`calculate*Score`, from `lib/analyzer.ts`) -/

/-- Parameter object passed to `calculateContentScore`. -/
structure ContentScoreParams where
  wordCount : ℕ
  readabilityScore : ℚ
  spellingIssues : ℕ
  grammarIssues : ℕ
  hasClearValue : Bool
  hasCTA : Bool
  messageClarity : ℚ
deriving DecidableEq

/-- `calculateContentScore`: base 70, bonuses for long content, readability,
clean spelling and a clear value proposition, capped at 100. -/
def calculateContentScore (p : ContentScoreParams) : ℚ :=
  let score : ℚ := 70
  let score := if p.wordCount ≥ 300 then score + 10 else score
  let score := if p.readabilityScore ≥ 60 then score + 10 else score
  let score := if p.spellingIssues = 0 then score + 5 else score
  let score := if p.hasClearValue then score + 5 else score
  min 100 score

/-- Parameter object passed to `calculateSEOScore`. -/
structure SEOScoreParams where
  title : ℕ
  description : ℕ
  h1Count : ℕ
  properStructure : Bool
  missingAlt : ℕ
  totalImages : ℕ
  schemaMarkup : Bool
  mobileOptimized : Bool
deriving DecidableEq

/-- `calculateSEOScore`: base 50 plus bonuses, capped at 100. -/
def calculateSEOScore (p : SEOScoreParams) : ℚ :=
  let score : ℚ := 50
  let score := if p.title ≥ 30 ∧ p.title ≤ 60 then score + 15 else score
  let score := if p.description ≥ 120 then score + 15 else score
  let score := if p.properStructure then score + 10 else score
  let score := if p.schemaMarkup then score + 5 else score
  let score := if p.mobileOptimized then score + 5 else score
  min 100 score

/-- Parameter object passed to `calculatePerformanceScore`. -/
structure PerformanceScoreParams where
  scripts : ℕ
  styles : ℕ
  images : ℕ
  hasMinifiedCSS : Bool
  hasMinifiedJS : Bool
  hasLazyLoading : Bool
  estimatedLoadTime : ℚ
deriving DecidableEq

/-- `calculatePerformanceScore`: base 80, a penalty for many scripts,
bonuses for minification and lazy loading, clamped to `[0, 100]`. -/
def calculatePerformanceScore (p : PerformanceScoreParams) : ℚ :=
  let score : ℚ := 80
  let score := if p.scripts > 10 then score - 10 else score
  let score := if p.hasMinifiedCSS then score + 5 else score
  let score := if p.hasMinifiedJS then score + 5 else score
  let score := if p.hasLazyLoading then score + 10 else score
  max 0 (min 100 score)

/-- Parameter object passed to `calculateDesignScore`. -/
structure DesignScoreParams where
  visualHierarchy : ℚ
  whitespace : ℚ
  readableSize : Bool
  fontVariety : ℕ
  imageTextBalance : ℚ
deriving DecidableEq

/-- `calculateDesignScore`: base 60 plus bonuses, capped at 100. -/
def calculateDesignScore (p : DesignScoreParams) : ℚ :=
  let score : ℚ := 60
  let score := if p.visualHierarchy ≥ 70 then score + 15 else score
  let score := if p.whitespace ≥ 70 then score + 10 else score
  let score := if p.readableSize then score + 10 else score
  let score := if p.fontVariety ≥ 3 ∧ p.fontVariety ≤ 6 then score + 5 else score
  min 100 score

/-- Parameter object passed to `calculatePsychologyScore`. -/
structure PsychologyScoreParams where
  trustSignals : ℕ
  ctaCount : ℕ
  ctaAboveFold : Bool
  ctaClarity : ℚ
  hasUrgency : Bool
  hasSocialProof : Bool
deriving DecidableEq

/-- `calculatePsychologyScore`: base 50 plus bonuses, capped at 100. -/
def calculatePsychologyScore (p : PsychologyScoreParams) : ℚ :=
  let score : ℚ := 50
  let score := if p.trustSignals ≥ 3 then score + 20 else score
  let score := if p.ctaCount ≥ 1 then score + 10 else score
  let score := if p.ctaAboveFold then score + 10 else score
  let score := if p.hasSocialProof then score + 10 else score
  min 100 score

/-- Parameter object passed to `calculateAccessibilityScore`. -/
structure AccessibilityScoreParams where
  ariaScore : ℚ
  altScore : ℚ
  hasSemanticHTML : Bool
  hasLangAttr : Bool
deriving DecidableEq

/-- `calculateAccessibilityScore`: starts from the average of the ARIA and
alt-text ratio scores, adds bonuses for semantic HTML and a `lang`
attribute, then `Math.min(100, Math.round(score))`. -/
def calculateAccessibilityScore (p : AccessibilityScoreParams) : ℚ :=
  let score : ℚ := (p.ariaScore + p.altScore) / 2
  let score := if p.hasSemanticHTML then score + 10 else score
  let score := if p.hasLangAttr then score + 5 else score
  min 100 ((jsRound score : ℚ))

/-! ## Content helper methods -/

/-- `calculateReadability`: average words per sentence, bucketed. -/
def calculateReadability (text : List Char) : ℚ :=
  let sentences := (jsSplitRuns isSentenceEnd text).length
  let words := (jsSplitRuns isWsChar text).length
  let avgWordsPerSentence : ℚ := (words : ℚ) / (max sentences 1 : ℕ)
  if avgWordsPerSentence ≤ 15 then 90
  else if avgWordsPerSentence ≤ 20 then 75
  else if avgWordsPerSentence ≤ 25 then 60
  else 40

/-- The five-word misspelling denylist. -/
def commonMisspellings : List (List Char) :=
  [ "recieve".toList, "occured".toList, "seperate".toList,
    "definately".toList, "alot".toList ]

/-- `getCorrection`: fixed correction table, identity as fallback. -/
def getCorrection (word : List Char) : List Char :=
  if word = "recieve".toList then "receive".toList
  else if word = "occured".toList then "occurred".toList
  else if word = "seperate".toList then "separate".toList
  else if word = "definately".toList then "definitely".toList
  else if word = "alot".toList then "a lot".toList
  else word

/-- One reported spelling issue. -/
structure SpellingIssue where
  word : List Char
  suggestion : List Char
  position : ℕ
deriving DecidableEq

/-- `detectSpellingIssues`: one issue per denylist word occurring
(case-insensitively) in the text, at its first occurrence. -/
def detectSpellingIssues (text : List Char) : List SpellingIssue :=
  commonMisspellings.filterMap fun word =>
    if includesSub word (toLowerList text) then
      some ⟨word, getCorrection word, (indexOfSub word (toLowerList text)).getD 0⟩
    else none

/-- One reported grammar issue (`type` in the source is `issueType` here). -/
structure GrammarIssue where
  text : List Char
  suggestion : List Char
  issueType : List Char
deriving DecidableEq

/-- `detectGrammarIssues`: the single case-sensitive check for
`'your welcome'`. -/
def detectGrammarIssues (text : List Char) : List GrammarIssue :=
  if includesSub ("your welcome".toList) text then
    [⟨ "your welcome".toList, "you're welcome".toList, "grammar".toList ⟩]
  else []

/-! ## The parsed document

`Doc` models the cheerio document: each field holds the result of one of
the primitive DOM queries `lib/analyzer.ts` performs.  Fields named
`has...`/`contains...` model selector queries used only through
`.length > 0`; count fields model `.length` values used arithmetically. -/

structure Doc where
  /-- `$('body').text()` -/
  bodyText : List Char
  /-- `$('title').text()` -/
  titleText : List Char
  /-- `$('h1').first().text()` -/
  h1FirstText : List Char
  /-- `$('button, a').text()` -/
  linksButtonsText : List Char
  /-- `$('h1').length` -/
  h1Count : ℕ
  /-- `$('h2').length` -/
  h2Count : ℕ
  /-- `$('h3').length` -/
  h3Count : ℕ
  /-- `$('meta[name="description"]').attr('content')` -/
  metaDescription : Option (List Char)
  /-- `$('meta[name="keywords"]').attr('content')` -/
  metaKeywords : Option (List Char)
  /-- `$('img').length` -/
  imgCount : ℕ
  /-- `$('img').filter((_, img) => !$(img).attr('alt')).length`
  (images whose `alt` is absent or empty) -/
  imgMissingAltOrEmpty : ℕ
  /-- `$('img[alt]').length` (images with an `alt` attribute, even empty) -/
  imgWithAltAttr : ℕ
  /-- the `href` attributes of anchors that have one, in document order -/
  anchorHrefs : List (List Char)
  /-- `$('script[type="application/ld+json"]').length` -/
  schemaScriptCount : ℕ
  /-- `$('meta[name="viewport"]').attr('content')` -/
  viewportContent : Option (List Char)
  /-- the `src` attributes of `script[src]` elements -/
  scriptSrcList : List (List Char)
  /-- the `href` attributes of `link[rel="stylesheet"]` elements -/
  stylesheetHrefs : List (List Char)
  /-- `$('img[loading="lazy"]').length` -/
  lazyImgCount : ℕ
  /-- the inline `font-size` values (`parseInt`ed, `NaN` filtered out),
  in document order -/
  fontSizes : List ℤ
  /-- `$('*').length` -/
  elementCount : ℕ
  /-- `$('button, a.button, a.btn, .cta').length` -/
  ctaCount : ℕ
  /-- `$('button, a.button, a.btn, .cta').text()` -/
  ctaText : List Char
  /-- `$('*:contains("customers")').length > 0` -/
  containsCustomers : Bool
  /-- `$('*:contains("reviews")').length > 0` -/
  containsReviews : Bool
  /-- `$('*:contains("testimonial")').length > 0` -/
  containsTestimonial : Bool
  /-- `$('link[rel="canonical"]').attr('href')` -/
  canonicalHref : Option (List Char)
  /-- `$('*:contains("contact"), *:contains("email"), *:contains("phone")').length > 0` -/
  hasContactSignal : Bool
  /-- `$('a[href*="privacy"]').length > 0` -/
  hasPrivacyLink : Bool
  /-- `$('a[href*="terms"]').length > 0` -/
  hasTermsLink : Bool
  /-- `$('*:contains("testimonial"), .testimonial').length > 0` -/
  hasTestimonialOrClass : Bool
  /-- `$('img[alt*="secure"], img[alt*="ssl"], img[alt*="verified"]').length > 0` -/
  hasSecurityBadgeImg : Bool
  /-- `$('button, a, input, select, textarea').length` -/
  interactiveCount : ℕ
  /-- `$('[aria-label], [aria-labelledby]').length` -/
  ariaLabeledCount : ℕ
  /-- `$('header, nav, main, footer, article, section').length` -/
  semanticCount : ℕ
  /-- `$('html[lang]').length` -/
  htmlLangCount : ℕ
deriving DecidableEq

/-! ## Analysis helper methods -/

/-- `analyzeHeadingStructure` result. -/
structure HeadingAnalysis where
  h1Count : ℕ
  h2Count : ℕ
  h3Count : ℕ
  properHierarchy : Bool
  score : ℚ
deriving DecidableEq

/-- `analyzeHeadingStructure`. -/
def analyzeHeadingStructure (d : Doc) : HeadingAnalysis :=
  { h1Count := d.h1Count
    h2Count := d.h2Count
    h3Count := d.h3Count
    properHierarchy := d.h1Count == 1 && d.h2Count > 0
    score := if d.h1Count = 1 ∧ d.h2Count > 0 then 90 else 60 }

/-- `assessMessageClarity`: based on the lengths of the first `h1` and the
title. -/
def assessMessageClarity (d : Doc) : ℚ :=
  if d.h1FirstText.length > 20 ∧ d.titleText.length > 20 then 90
  else if d.h1FirstText.length > 10 ∨ d.titleText.length > 10 then 70
  else 40

/-- `assessVisualHierarchy`: based on heading usage. -/
def assessVisualHierarchy (d : Doc) : ℚ :=
  if d.h1Count = 1 ∧ d.h2Count ≥ 2 ∧ d.h3Count ≥ 1 then 90
  else if d.h1Count = 1 ∧ d.h2Count ≥ 1 then 75
  else 50

/-- `assessWhitespace`: element density relative to text length. -/
def assessWhitespace (d : Doc) : ℚ :=
  let density : ℚ := (d.elementCount : ℚ) / (max d.bodyText.length 1 : ℕ)
  if density > (0.01 : ℚ) then 80
  else if density > (0.005 : ℚ) then 65
  else 50

/-- `calculateImageTextBalance` result. -/
structure ImageTextBalance where
  score : ℚ
  recommendation : List Char
deriving DecidableEq

/-- `calculateImageTextBalance`. -/
def calculateImageTextBalance (images : ℕ) (textLength : ℕ) : ImageTextBalance :=
  let ratio : ℚ := (images : ℚ) / max ((textLength : ℚ) / 1000) 1
  if ratio > 5 then
    ⟨50, "Too many images relative to text content".toList⟩
  else if ratio < (0.5 : ℚ) ∧ images > 0 then
    ⟨60, "Consider adding more visuals to break up text".toList⟩
  else if images = 0 then
    ⟨40, "Add images to enhance visual appeal".toList⟩
  else
    ⟨85, "Good balance between images and text".toList⟩

/-- `detectTrustSignals` result. -/
structure TrustSignals where
  score : ℚ
  present : List (List Char)
  missing : List (List Char)
deriving DecidableEq

/-- The six trust-signal checks, in source order, as (name, predicate). -/
def trustSignalChecks (d : Doc) : List (List Char × Bool) :=
  [ ("SSL Certificate".toList,
      (d.canonicalHref.map (startsWithList ("https://".toList))).getD false),
    ("Contact Information".toList, d.hasContactSignal),
    ("Privacy Policy".toList, d.hasPrivacyLink),
    ("Terms of Service".toList, d.hasTermsLink),
    ("Testimonials".toList, d.hasTestimonialOrClass),
    ("Security Badge".toList, d.hasSecurityBadgeImg) ]

/-- `detectTrustSignals`. -/
def detectTrustSignals (d : Doc) : TrustSignals :=
  let checks := trustSignalChecks d
  let present := (checks.filter (fun c => c.2)).map (fun c => c.1)
  let missing := (checks.filter (fun c => !c.2)).map (fun c => c.1)
  { score := (present.length : ℚ) / ((present.length + missing.length : ℕ) : ℚ) * 100
    present := present
    missing := missing }

/-- `assessCTAClarity`. -/
def assessCTAClarity (ctaCount : ℕ) (ctaTextRaw : List Char) : ℚ :=
  if ctaCount = 0 then 0
  else
    let ctaText := toLowerList ctaTextRaw
    let actionWords : List (List Char) :=
      [ "buy".toList, "get".toList, "start".toList, "try".toList,
        "download".toList, "subscribe".toList, "contact".toList, "learn".toList ]
    let hasActionWord := actionWords.any fun w => includesSub w ctaText
    if hasActionWord ∧ ctaCount ≥ 1 ∧ ctaCount ≤ 3 then 90
    else if hasActionWord then 75
    else if ctaCount > 0 then 60
    else 30

/-! ## Result structures (the TypeScript interfaces) -/

/-- `ContentAnalysis.contentQuality`. -/
structure ContentQuality where
  hasClearValue : Bool
  hasCallToAction : Bool
  messageClarity : ℚ
deriving DecidableEq

/-- `ContentAnalysis`. -/
structure ContentAnalysis where
  score : ℚ
  wordCount : ℕ
  readabilityScore : ℚ
  spellingIssues : List SpellingIssue
  grammarIssues : List GrammarIssue
  headingStructure : HeadingAnalysis
  contentQuality : ContentQuality
deriving DecidableEq

/-- `SEOAnalysis.metaTags.title` / `.description`. -/
structure TagInfo where
  present : Bool
  length : ℕ
  optimized : Bool
deriving DecidableEq

/-- `SEOAnalysis.metaTags`. -/
structure MetaTags where
  title : TagInfo
  description : TagInfo
  keywords : List (List Char)
deriving DecidableEq

/-- `SEOAnalysis.headings`. -/
structure HeadingsInfo where
  h1Count : ℕ
  properStructure : Bool
deriving DecidableEq

/-- `SEOAnalysis.images`. -/
structure ImagesInfo where
  total : ℕ
  missingAlt : ℕ
  optimizationScore : ℚ
deriving DecidableEq

/-- `SEOAnalysis`. -/
structure SEOAnalysis where
  score : ℚ
  metaTags : MetaTags
  headings : HeadingsInfo
  images : ImagesInfo
  internalLinks : ℕ
  externalLinks : ℕ
  schemaMarkup : Bool
  mobileOptimized : Bool
deriving DecidableEq

/-- `PerformanceAnalysis.resourcesSize`. -/
structure ResourcesSize where
  images : ℕ
  scripts : ℕ
  styles : ℕ
deriving DecidableEq

/-- `PerformanceAnalysis.optimizations`. -/
structure Optimizations where
  minifiedCSS : Bool
  minifiedJS : Bool
  compressedImages : Bool
  lazyLoading : Bool
deriving DecidableEq

/-- `PerformanceAnalysis`. -/
structure PerformanceAnalysis where
  score : ℚ
  estimatedLoadTime : ℚ
  resourcesSize : ResourcesSize
  optimizations : Optimizations
deriving DecidableEq

/-- `ColorContrastIssue` (never produced by the analyzer). -/
structure ColorContrastIssue where
  element : List Char
  foreground : List Char
  background : List Char
  ratio : ℚ
deriving DecidableEq

/-- `DesignAnalysis.colorContrast`. -/
structure ColorContrast where
  score : ℚ
  issues : List ColorContrastIssue
deriving DecidableEq

/-- `DesignAnalysis.typography`. -/
structure Typography where
  fontSizes : List ℤ
  readableSize : Bool
  fontVariety : ℕ
deriving DecidableEq

/-- `DesignAnalysis`. -/
structure DesignAnalysis where
  score : ℚ
  visualHierarchy : ℚ
  whitespace : ℚ
  colorContrast : ColorContrast
  typography : Typography
  imageTextBalance : ImageTextBalance
deriving DecidableEq

/-- `PsychologyAnalysis.ctaPlacement`. -/
structure CtaPlacement where
  score : ℚ
  ctaCount : ℕ
  aboveFold : Bool
  clarity : ℚ
deriving DecidableEq

/-- `PsychologyAnalysis.colorPsychology`. -/
structure ColorPsychology where
  score : ℚ
  dominantColors : List (List Char)
  emotionalImpact : List Char
  brandAlignment : ℚ
deriving DecidableEq

/-- `PsychologyAnalysis`. -/
structure PsychologyAnalysis where
  score : ℚ
  trustSignals : TrustSignals
  ctaPlacement : CtaPlacement
  colorPsychology : ColorPsychology
  urgencyTriggers : Bool
  socialProof : Bool
deriving DecidableEq

/-- `AccessibilityAnalysis.ariaLabels` (`missing` can be negative in the
source since any element may carry an `aria-label`). -/
structure AriaLabels where
  score : ℚ
  missing : ℤ
deriving DecidableEq

/-- `AccessibilityAnalysis`. -/
structure AccessibilityAnalysis where
  score : ℚ
  wcagCompliance : List Char
  ariaLabels : AriaLabels
  keyboardNavigation : Bool
  screenReaderFriendly : Bool
  contrastRatio : ℚ
deriving DecidableEq

/-- `Issue` (severity/category/etc. kept as strings, as in the source). -/
structure Issue where
  severity : List Char
  category : List Char
  title : List Char
  description : List Char
  impact : List Char
  premium : Bool
deriving DecidableEq

/-- `Recommendation`. -/
structure Recommendation where
  title : List Char
  description : List Char
  impact : List Char
  effort : List Char
  category : List Char
  premium : Bool
deriving DecidableEq

/-- `AnalysisResult`. -/
structure AnalysisResult where
  url : List Char
  timestamp : List Char
  overallScore : ℤ
  contentAnalysis : ContentAnalysis
  seoAnalysis : SEOAnalysis
  performanceAnalysis : PerformanceAnalysis
  designAnalysis : DesignAnalysis
  psychologyAnalysis : PsychologyAnalysis
  accessibilityAnalysis : AccessibilityAnalysis
  criticalIssues : List Issue
  quickWins : List Recommendation
  strategicImprovements : List Recommendation
  freeInsightsCount : ℕ
  premiumInsightsAvailable : ℕ
deriving DecidableEq

/-! ## The six analysis modules (pure part, over the parsed document) -/

/-- `analyzeContent` (the pure computation after the null check). -/
def analyzeContent (d : Doc) : ContentAnalysis :=
  let text := d.bodyText
  let wordCount := ((jsSplitRuns isWsChar text).filter fun w => w.length > 0).length
  let headingStructure := analyzeHeadingStructure d
  let btnText := toLowerList d.linksButtonsText
  let hasCTA := includesSub ("contact".toList) btnText
             || includesSub ("get started".toList) btnText
             || includesSub ("buy now".toList) btnText
  let titleText := toLowerList d.titleText
  let h1Text := toLowerList d.h1FirstText
  let hasClearValue := titleText.length > 10 && h1Text.length > 10
  let readabilityScore := calculateReadability text
  let spellingIssues := detectSpellingIssues text
  let grammarIssues := detectGrammarIssues text
  let messageClarity := assessMessageClarity d
  let score := calculateContentScore
    { wordCount := wordCount
      readabilityScore := readabilityScore
      spellingIssues := spellingIssues.length
      grammarIssues := grammarIssues.length
      hasClearValue := hasClearValue
      hasCTA := hasCTA
      messageClarity := messageClarity }
  { score := score
    wordCount := wordCount
    readabilityScore := readabilityScore
    spellingIssues := spellingIssues.take 5
    grammarIssues := grammarIssues.take 5
    headingStructure := headingStructure
    contentQuality :=
      { hasClearValue := hasClearValue
        hasCallToAction := hasCTA
        messageClarity := messageClarity } }

/-- `analyzeSEO` (the pure computation; `url` is the analyzer's `this.url`). -/
def analyzeSEO (d : Doc) (url : List Char) : SEOAnalysis :=
  let title := d.titleText
  let description := (d.metaDescription).getD []
  let keywords := match d.metaKeywords with
    | some k => jsSplitChar ',' k
    | none => []
  let h1Count := d.h1Count
  let properStructure := h1Count == 1 && d.h2Count > 0
  let missingAlt := d.imgMissingAltOrEmpty
  let internalLinks :=
    (d.anchorHrefs.filter fun h =>
      startsWithList ("/".toList) h || startsWithList url h).length
  let externalLinks :=
    (d.anchorHrefs.filter fun h =>
      startsWithList ("http".toList) h && !startsWithList url h).length
  let schemaMarkup := d.schemaScriptCount > 0
  let mobileOptimized := match d.viewportContent with
    | some v => includesSub ("width=device-width".toList) v
    | none => false
  let score := calculateSEOScore
    { title := title.length
      description := description.length
      h1Count := h1Count
      properStructure := properStructure
      missingAlt := missingAlt
      totalImages := d.imgCount
      schemaMarkup := schemaMarkup
      mobileOptimized := mobileOptimized }
  { score := score
    metaTags :=
      { title :=
          { present := title.length > 0
            length := title.length
            optimized := title.length ≥ 30 && title.length ≤ 60 }
        description :=
          { present := description.length > 0
            length := description.length
            optimized := description.length ≥ 120 && description.length ≤ 160 }
        keywords := keywords }
    headings := { h1Count := h1Count, properStructure := properStructure }
    images :=
      { total := d.imgCount
        missingAlt := missingAlt
        optimizationScore :=
          ((d.imgCount : ℚ) - missingAlt) / (max d.imgCount 1 : ℕ) * 100 }
    internalLinks := internalLinks
    externalLinks := externalLinks
    schemaMarkup := schemaMarkup
    mobileOptimized := mobileOptimized }

/-- `Number(x.toFixed(2))` for a nonnegative rational. -/
def toFixed2 (x : ℚ) : ℚ :=
  (jsRound (x * 100) : ℚ) / 100

/-- `analyzePerformance` (the pure computation). -/
def analyzePerformance (d : Doc) : PerformanceAnalysis :=
  let scripts := d.scriptSrcList.length
  let styles := d.stylesheetHrefs.length
  let images := d.imgCount
  let hasMinifiedCSS := d.stylesheetHrefs.any fun h => includesSub (".min.css".toList) h
  let hasMinifiedJS := d.scriptSrcList.any fun s => includesSub (".min.js".toList) s
  let hasLazyLoading := d.lazyImgCount > 0
  let estimatedLoadTime : ℚ :=
    (scripts : ℚ) * (0.2 : ℚ) + (styles : ℚ) * (0.15 : ℚ) + (images : ℚ) * (0.1 : ℚ)
  let score := calculatePerformanceScore
    { scripts := scripts
      styles := styles
      images := images
      hasMinifiedCSS := hasMinifiedCSS
      hasMinifiedJS := hasMinifiedJS
      hasLazyLoading := hasLazyLoading
      estimatedLoadTime := estimatedLoadTime }
  { score := score
    estimatedLoadTime := toFixed2 estimatedLoadTime
    resourcesSize := { images := images, scripts := scripts, styles := styles }
    optimizations :=
      { minifiedCSS := hasMinifiedCSS
        minifiedJS := hasMinifiedJS
        compressedImages := false
        lazyLoading := hasLazyLoading } }

/-- `analyzeDesign` (the pure computation). -/
def analyzeDesign (d : Doc) : DesignAnalysis :=
  let uniqueFontSizes := dedupFirst d.fontSizes
  let readableSize := d.fontSizes.any fun size => size ≥ 16
  let visualHierarchy := assessVisualHierarchy d
  let whitespace := assessWhitespace d
  let imageTextBalance := calculateImageTextBalance d.imgCount d.bodyText.length
  let score := calculateDesignScore
    { visualHierarchy := visualHierarchy
      whitespace := whitespace
      readableSize := readableSize
      fontVariety := uniqueFontSizes.length
      imageTextBalance := imageTextBalance.score }
  { score := score
    visualHierarchy := visualHierarchy
    whitespace := whitespace
    colorContrast := { score := 75, issues := [] }
    typography :=
      { fontSizes := uniqueFontSizes.take 10
        readableSize := readableSize
        fontVariety := uniqueFontSizes.length }
    imageTextBalance := imageTextBalance }

/-- `analyzePsychology` (the pure computation). -/
def analyzePsychology (d : Doc) : PsychologyAnalysis :=
  let trustSignals := detectTrustSignals d
  let ctaText := toLowerList d.ctaText
  let hasUrgency := includesSub ("now".toList) ctaText
                 || includesSub ("today".toList) ctaText
                 || includesSub ("limited".toList) ctaText
  let hasSocialProof := d.containsCustomers || d.containsReviews || d.containsTestimonial
  let ctaAboveFold := d.ctaCount > 0
  let ctaClarity := assessCTAClarity d.ctaCount d.ctaText
  let score := calculatePsychologyScore
    { trustSignals := trustSignals.present.length
      ctaCount := d.ctaCount
      ctaAboveFold := ctaAboveFold
      ctaClarity := ctaClarity
      hasUrgency := hasUrgency
      hasSocialProof := hasSocialProof }
  { score := score
    trustSignals := trustSignals
    ctaPlacement :=
      { score := ctaClarity
        ctaCount := d.ctaCount
        aboveFold := ctaAboveFold
        clarity := ctaClarity }
    colorPsychology :=
      { score := 70
        dominantColors := []
        emotionalImpact := "Professional".toList
        brandAlignment := 75 }
    urgencyTriggers := hasUrgency
    socialProof := hasSocialProof }

/-- `analyzeAccessibility` (the pure computation). -/
def analyzeAccessibility (d : Doc) : AccessibilityAnalysis :=
  let elementsNeedingAria := d.interactiveCount
  let elementsWithAria := d.ariaLabeledCount
  let images := d.imgCount
  let imagesWithAlt := d.imgWithAltAttr
  let hasSemanticHTML := d.semanticCount > 0
  let hasLangAttr := d.htmlLangCount > 0
  let ariaScore : ℚ :=
    if elementsNeedingAria > 0
    then (elementsWithAria : ℚ) / (elementsNeedingAria : ℚ) * 100
    else 100
  let altScore : ℚ :=
    if images > 0 then (imagesWithAlt : ℚ) / (images : ℚ) * 100 else 100
  let score := calculateAccessibilityScore
    { ariaScore := ariaScore
      altScore := altScore
      hasSemanticHTML := hasSemanticHTML
      hasLangAttr := hasLangAttr }
  { score := score
    wcagCompliance :=
      if score ≥ 80 then "AA".toList
      else if score ≥ 60 then "A".toList
      else "Needs Improvement".toList
    ariaLabels :=
      { score := ariaScore
        missing := (elementsNeedingAria : ℤ) - (elementsWithAria : ℤ) }
    keyboardNavigation := true
    screenReaderFriendly := hasSemanticHTML && decide (ariaScore > 50)
    contrastRatio := (4.5 : ℚ) }

/-! ## Aggregation: overall score, recommendations, insight counts -/

/-- The `analyses` object threaded through `calculateOverallScore` and
`generateRecommendations`. -/
structure Analyses where
  contentAnalysis : ContentAnalysis
  seoAnalysis : SEOAnalysis
  performanceAnalysis : PerformanceAnalysis
  designAnalysis : DesignAnalysis
  psychologyAnalysis : PsychologyAnalysis
  accessibilityAnalysis : AccessibilityAnalysis
deriving DecidableEq

/-- `calculateOverallScore`: fixed-weight average of the six module
scores, `Math.round`ed. -/
def calculateOverallScore (a : Analyses) : ℤ :=
  jsRound
    ( a.contentAnalysis.score * (0.25 : ℚ)
    + a.seoAnalysis.score * (0.20 : ℚ)
    + a.performanceAnalysis.score * (0.15 : ℚ)
    + a.designAnalysis.score * (0.15 : ℚ)
    + a.psychologyAnalysis.score * (0.15 : ℚ)
    + a.accessibilityAnalysis.score * (0.10 : ℚ) )

/-- The three recommendation lists produced by `generateRecommendations`. -/
structure Recs where
  criticalIssues : List Issue
  quickWins : List Recommendation
  strategicImprovements : List Recommendation
deriving DecidableEq

/-- The 'Missing Page Title' critical issue. -/
def issueMissingTitle : Issue :=
  { severity := "critical".toList
    category := "SEO".toList
    title := "Missing Page Title".toList
    description := "Your page is missing a title tag, which is crucial for SEO".toList
    impact := "Search engines cannot properly index your page".toList
    premium := false }

/-- The 'Missing Meta Description' critical issue. -/
def issueMissingDescription : Issue :=
  { severity := "high".toList
    category := "SEO".toList
    title := "Missing Meta Description".toList
    description := "No meta description found".toList
    impact := "Lower click-through rates from search results".toList
    premium := false }

/-- The 'Fix Spelling Errors' quick win; premium iff more than 5 issues. -/
def quickWinSpelling (n : ℕ) : Recommendation :=
  { title := "Fix Spelling Errors".toList
    description :=
      "Found ".toList ++ Nat.toDigits 10 n ++ " spelling issues".toList
    impact := "high".toList
    effort := "low".toList
    category := "Content".toList
    premium := n > 5 }

/-- The 'Implement Lazy Loading' quick win. -/
def quickWinLazyLoading : Recommendation :=
  { title := "Implement Lazy Loading".toList
    description := "Add lazy loading to images for faster initial page load".toList
    impact := "medium".toList
    effort := "low".toList
    category := "Performance".toList
    premium := false }

/-- The 'Enhance Trust Signals' strategic improvement. -/
def strategicTrust : Recommendation :=
  { title := "Enhance Trust Signals".toList
    description := "Add testimonials, security badges, and social proof".toList
    impact := "high".toList
    effort := "medium".toList
    category := "Psychology".toList
    premium := true }

/-- The 'Improve Visual Hierarchy' strategic improvement. -/
def strategicVisual : Recommendation :=
  { title := "Improve Visual Hierarchy".toList
    description := "Optimize typography and spacing for better readability".toList
    impact := "high".toList
    effort := "medium".toList
    category := "Design".toList
    premium := true }

/-- `generateRecommendations`: conditional pushes, in source order. -/
def generateRecommendations (a : Analyses) : Recs :=
  { criticalIssues :=
      (if a.seoAnalysis.metaTags.title.present then [] else [issueMissingTitle])
      ++ (if a.seoAnalysis.metaTags.description.present then []
          else [issueMissingDescription])
    quickWins :=
      (if a.contentAnalysis.spellingIssues.length > 0 then
        [quickWinSpelling a.contentAnalysis.spellingIssues.length] else [])
      ++ (if a.performanceAnalysis.optimizations.lazyLoading then []
          else [quickWinLazyLoading])
    strategicImprovements :=
      (if a.psychologyAnalysis.score < 70 then [strategicTrust] else [])
      ++ (if a.designAnalysis.score < 70 then [strategicVisual] else []) }

/-- `countFreeInsights`. -/
def countFreeInsights (criticalIssues : List Issue)
    (quickWins : List Recommendation) : ℕ :=
  (criticalIssues.filter fun i => !i.premium).length
  + (quickWins.filter fun r => !r.premium).length

/-- `countPremiumInsights`. -/
def countPremiumInsights (criticalIssues : List Issue)
    (quickWins : List Recommendation)
    (strategic : List Recommendation) : ℕ :=
  (criticalIssues.filter fun i => i.premium).length
  + (quickWins.filter fun r => r.premium).length
  + (strategic.filter fun r => r.premium).length

/-- The successful-path body of `analyze`: run the six modules over the
parsed document, aggregate, and build the result (`now` stands for
`new Date().toISOString()`). -/
def analyzeDoc (d : Doc) (url now : List Char) : AnalysisResult :=
  let contentAnalysis := analyzeContent d
  let seoAnalysis := analyzeSEO d url
  let performanceAnalysis := analyzePerformance d
  let designAnalysis := analyzeDesign d
  let psychologyAnalysis := analyzePsychology d
  let accessibilityAnalysis := analyzeAccessibility d
  let analyses : Analyses :=
    { contentAnalysis := contentAnalysis
      seoAnalysis := seoAnalysis
      performanceAnalysis := performanceAnalysis
      designAnalysis := designAnalysis
      psychologyAnalysis := psychologyAnalysis
      accessibilityAnalysis := accessibilityAnalysis }
  let recs := generateRecommendations analyses
  { url := url
    timestamp := now
    overallScore := calculateOverallScore analyses
    contentAnalysis := contentAnalysis
    seoAnalysis := seoAnalysis
    performanceAnalysis := performanceAnalysis
    designAnalysis := designAnalysis
    psychologyAnalysis := psychologyAnalysis
    accessibilityAnalysis := accessibilityAnalysis
    criticalIssues := recs.criticalIssues
    quickWins := recs.quickWins
    strategicImprovements := recs.strategicImprovements
    freeInsightsCount := countFreeInsights recs.criticalIssues recs.quickWins
    premiumInsightsAvailable :=
      countPremiumInsights recs.criticalIssues recs.quickWins
        recs.strategicImprovements }

/-! ## The stateful analyzer (`WebsiteAnalyzer`)

The class fields `html`, `$` and `url` become an explicit state record;
the thrown JS values become `Except (Option (List Char))`, where `none`
models a thrown non-`Error` value (turned into `'Unknown error'` by the
catch clause). -/

/-- The `WebsiteAnalyzer` instance fields (`dom` is `this.$`). -/
structure AnalyzerState where
  html : List Char
  dom : Option Doc
  url : List Char
deriving DecidableEq

/-- The outcome of `axios.get` inside `fetchWebsite`: either the response
body together with its (deterministic) cheerio parse, or a thrown value. -/
inductive FetchOutcome where
  | ok (html : List Char) (doc : Doc)
  | err (msg : Option (List Char))
deriving DecidableEq

/-- Identifier for one of the six analysis methods. -/
inductive ModuleId where
  | content
  | seo
  | perf
  | design
  | psych
  | access
deriving DecidableEq

/-- The value produced by one analysis method. -/
inductive ModValue where
  | content (c : ContentAnalysis)
  | seo (s : SEOAnalysis)
  | perf (p : PerformanceAnalysis)
  | design (d : DesignAnalysis)
  | psych (y : PsychologyAnalysis)
  | access (a : AccessibilityAnalysis)
deriving DecidableEq

/-- `analyzeContent` method: `if (!this.$) throw new Error('HTML not loaded')`,
else the pure analysis.  The state is returned alongside the value. -/
def analyzeContentM (s : AnalyzerState) :
    AnalyzerState × Except (Option (List Char)) ContentAnalysis :=
  match s.dom with
  | none => (s, .error (some ("HTML not loaded".toList)))
  | some d => (s, .ok (analyzeContent d))

/-- `analyzeSEO` method (reads `this.url` from the state). -/
def analyzeSEOM (s : AnalyzerState) :
    AnalyzerState × Except (Option (List Char)) SEOAnalysis :=
  match s.dom with
  | none => (s, .error (some ("HTML not loaded".toList)))
  | some d => (s, .ok (analyzeSEO d s.url))

/-- `analyzePerformance` method. -/
def analyzePerformanceM (s : AnalyzerState) :
    AnalyzerState × Except (Option (List Char)) PerformanceAnalysis :=
  match s.dom with
  | none => (s, .error (some ("HTML not loaded".toList)))
  | some d => (s, .ok (analyzePerformance d))

/-- `analyzeDesign` method. -/
def analyzeDesignM (s : AnalyzerState) :
    AnalyzerState × Except (Option (List Char)) DesignAnalysis :=
  match s.dom with
  | none => (s, .error (some ("HTML not loaded".toList)))
  | some d => (s, .ok (analyzeDesign d))

/-- `analyzePsychology` method. -/
def analyzePsychologyM (s : AnalyzerState) :
    AnalyzerState × Except (Option (List Char)) PsychologyAnalysis :=
  match s.dom with
  | none => (s, .error (some ("HTML not loaded".toList)))
  | some d => (s, .ok (analyzePsychology d))

/-- `analyzeAccessibility` method. -/
def analyzeAccessibilityM (s : AnalyzerState) :
    AnalyzerState × Except (Option (List Char)) AccessibilityAnalysis :=
  match s.dom with
  | none => (s, .error (some ("HTML not loaded".toList)))
  | some d => (s, .ok (analyzeAccessibility d))

/-- One analysis method, by identifier, with its value wrapped in
`ModValue` so that runs in different orders can be compared. -/
def applyModule (m : ModuleId) (s : AnalyzerState) :
    AnalyzerState × Except (Option (List Char)) ModValue :=
  match m with
  | .content => let (s2, r) := analyzeContentM s; (s2, r.map .content)
  | .seo => let (s2, r) := analyzeSEOM s; (s2, r.map .seo)
  | .perf => let (s2, r) := analyzePerformanceM s; (s2, r.map .perf)
  | .design => let (s2, r) := analyzeDesignM s; (s2, r.map .design)
  | .psych => let (s2, r) := analyzePsychologyM s; (s2, r.map .psych)
  | .access => let (s2, r) := analyzeAccessibilityM s; (s2, r.map .access)

/-- Run a sequence of analysis methods against the shared instance,
threading the state, and collect each method's outcome. -/
def runModules : List ModuleId → AnalyzerState →
    List (Except (Option (List Char)) ModValue)
  | [], _ => []
  | m :: ms, s =>
    let (s2, r) := applyModule m s
    r :: runModules ms s2

/-- The catch clause of `analyze`:
`Analysis failed: ${error instanceof Error ? error.message : 'Unknown error'}`. -/
def analysisFailedMessage (e : Option (List Char)) : List Char :=
  "Analysis failed: ".toList ++ e.getD ("Unknown error".toList)

/-- `analyze(url)`: set `this.url`, fetch once, run the six modules over
the shared state, aggregate; any thrown value is caught and re-thrown with
the `Analysis failed: ` prefix.  The middle component counts the calls to
`fetchWebsite` performed by this invocation. -/
def analyzeRun (fetch : FetchOutcome) (url now : List Char)
    (s0 : AnalyzerState) :
    AnalyzerState × ℕ × Except (List Char) AnalysisResult :=
  let s1 := { s0 with url := url }
  match fetch with
  | .err m => (s1, 1, .error (analysisFailedMessage m))
  | .ok html doc =>
    let s2 := { s1 with html := html, dom := some doc }
    match analyzeContentM s2 with
    | (s3, .error e) => (s3, 1, .error (analysisFailedMessage e))
    | (s3, .ok contentAnalysis) =>
      match analyzeSEOM s3 with
      | (s4, .error e) => (s4, 1, .error (analysisFailedMessage e))
      | (s4, .ok seoAnalysis) =>
        match analyzePerformanceM s4 with
        | (s5, .error e) => (s5, 1, .error (analysisFailedMessage e))
        | (s5, .ok performanceAnalysis) =>
          match analyzeDesignM s5 with
          | (s6, .error e) => (s6, 1, .error (analysisFailedMessage e))
          | (s6, .ok designAnalysis) =>
            match analyzePsychologyM s6 with
            | (s7, .error e) => (s7, 1, .error (analysisFailedMessage e))
            | (s7, .ok psychologyAnalysis) =>
              match analyzeAccessibilityM s7 with
              | (s8, .error e) => (s8, 1, .error (analysisFailedMessage e))
              | (s8, .ok accessibilityAnalysis) =>
                let analyses : Analyses :=
                  { contentAnalysis := contentAnalysis
                    seoAnalysis := seoAnalysis
                    performanceAnalysis := performanceAnalysis
                    designAnalysis := designAnalysis
                    psychologyAnalysis := psychologyAnalysis
                    accessibilityAnalysis := accessibilityAnalysis }
                let recs := generateRecommendations analyses
                (s8, 1, .ok
                  { url := url
                    timestamp := now
                    overallScore := calculateOverallScore analyses
                    contentAnalysis := contentAnalysis
                    seoAnalysis := seoAnalysis
                    performanceAnalysis := performanceAnalysis
                    designAnalysis := designAnalysis
                    psychologyAnalysis := psychologyAnalysis
                    accessibilityAnalysis := accessibilityAnalysis
                    criticalIssues := recs.criticalIssues
                    quickWins := recs.quickWins
                    strategicImprovements := recs.strategicImprovements
                    freeInsightsCount :=
                      countFreeInsights recs.criticalIssues recs.quickWins
                    premiumInsightsAvailable :=
                      countPremiumInsights recs.criticalIssues recs.quickWins
                        recs.strategicImprovements })

/-- Blank out the timestamp, to compare results up to the clock reading. -/
def eraseTimestamp (r : AnalysisResult) : AnalysisResult :=
  { r with timestamp := [] }

/-! ## Per-document score functions

Each of the seven scalar scores, as a standalone function of the parsed
document alone (the SEO score reads none of the URL-dependent link counts,
so it is computed here with an empty URL). -/

/-- The content module score as a function of the document. -/
def contentScoreOf (d : Doc) : ℚ := (analyzeContent d).score

/-- The SEO module score as a function of the document. -/
def seoScoreOf (d : Doc) : ℚ := (analyzeSEO d []).score

/-- The performance module score as a function of the document. -/
def performanceScoreOf (d : Doc) : ℚ := (analyzePerformance d).score

/-- The design module score as a function of the document. -/
def designScoreOf (d : Doc) : ℚ := (analyzeDesign d).score

/-- The psychology module score as a function of the document. -/
def psychologyScoreOf (d : Doc) : ℚ := (analyzePsychology d).score

/-- The accessibility module score as a function of the document. -/
def accessibilityScoreOf (d : Doc) : ℚ := (analyzeAccessibility d).score

/-- The overall score as a function of the document. -/
def overallScoreOf (d : Doc) : ℤ :=
  calculateOverallScore
    { contentAnalysis := analyzeContent d
      seoAnalysis := analyzeSEO d []
      performanceAnalysis := analyzePerformance d
      designAnalysis := analyzeDesign d
      psychologyAnalysis := analyzePsychology d
      accessibilityAnalysis := analyzeAccessibility d }

/-- A text whose first character is a space, followed by 15 words and no
sentence punctuation. -/
def c4Text : List Char := (" a a a a a a a a a a a a a a a").toList

/-! ## Shared lemmas -/

/-- `Math.round` never drops below a lower bound of its argument. -/
lemma jsRound_nonneg {x : ℚ} (h : 0 ≤ x) : 0 ≤ jsRound x := by
  unfold jsRound
  have : (0 : ℤ) ≤ Int.floor (x + 1/2) := by
    apply Int.le_floor.mpr
    push_cast
    linarith
  exact this

/-- `Math.round` of a value at most 100 is at most 100. -/
lemma jsRound_le_100 {x : ℚ} (h : x ≤ 100) : jsRound x ≤ 100 := by
  unfold jsRound
  have h2 : x + 1/2 < 101 := by linarith
  have h3 : Int.floor (x + 1/2) < (101 : ℤ) := by
    apply Int.floor_lt.mpr
    push_cast
    linarith
  omega

/-- Bounds for the content score. -/
lemma calculateContentScore_bounds (p : ContentScoreParams) :
    0 ≤ calculateContentScore p ∧ calculateContentScore p ≤ 100 := by
  simp only [calculateContentScore]
  refine ⟨le_min (by norm_num) ?_, min_le_left _ _⟩
  split_ifs <;> norm_num

/-- Bounds for the SEO score. -/
lemma calculateSEOScore_bounds (p : SEOScoreParams) :
    0 ≤ calculateSEOScore p ∧ calculateSEOScore p ≤ 100 := by
  simp only [calculateSEOScore]
  refine ⟨le_min (by norm_num) ?_, min_le_left _ _⟩
  split_ifs <;> norm_num

/-- Bounds for the performance score. -/
lemma calculatePerformanceScore_bounds (p : PerformanceScoreParams) :
    0 ≤ calculatePerformanceScore p ∧ calculatePerformanceScore p ≤ 100 := by
  simp only [calculatePerformanceScore]
  exact ⟨le_max_left _ _, max_le (by norm_num) (min_le_left _ _)⟩

/-- Bounds for the design score. -/
lemma calculateDesignScore_bounds (p : DesignScoreParams) :
    0 ≤ calculateDesignScore p ∧ calculateDesignScore p ≤ 100 := by
  simp only [calculateDesignScore]
  refine ⟨le_min (by norm_num) ?_, min_le_left _ _⟩
  split_ifs <;> norm_num

/-- Bounds for the psychology score. -/
lemma calculatePsychologyScore_bounds (p : PsychologyScoreParams) :
    0 ≤ calculatePsychologyScore p ∧ calculatePsychologyScore p ≤ 100 := by
  simp only [calculatePsychologyScore]
  refine ⟨le_min (by norm_num) ?_, min_le_left _ _⟩
  split_ifs <;> norm_num

/-- Bounds for the accessibility score, for nonnegative ratio scores. -/
lemma calculateAccessibilityScore_bounds (p : AccessibilityScoreParams)
    (h1 : 0 ≤ p.ariaScore) (h2 : 0 ≤ p.altScore) :
    0 ≤ calculateAccessibilityScore p ∧ calculateAccessibilityScore p ≤ 100 := by
  simp only [calculateAccessibilityScore]
  refine ⟨le_min (by norm_num) ?_, min_le_left _ _⟩
  have hbase : (0 : ℚ) ≤ (p.ariaScore + p.altScore) / 2 := by positivity
  have : (0 : ℤ) ≤ jsRound
      (let score := (p.ariaScore + p.altScore) / 2
       let score := if p.hasSemanticHTML then score + 10 else score
       if p.hasLangAttr then score + 5 else score) := by
    apply jsRound_nonneg
    split_ifs <;> linarith
  exact_mod_cast this

/-- Bounds for the overall score, from bounds on the six module scores. -/
lemma calculateOverallScore_bounds (a : Analyses)
    (hc0 : 0 ≤ a.contentAnalysis.score) (hc1 : a.contentAnalysis.score ≤ 100)
    (hs0 : 0 ≤ a.seoAnalysis.score) (hs1 : a.seoAnalysis.score ≤ 100)
    (hp0 : 0 ≤ a.performanceAnalysis.score) (hp1 : a.performanceAnalysis.score ≤ 100)
    (hd0 : 0 ≤ a.designAnalysis.score) (hd1 : a.designAnalysis.score ≤ 100)
    (hy0 : 0 ≤ a.psychologyAnalysis.score) (hy1 : a.psychologyAnalysis.score ≤ 100)
    (ha0 : 0 ≤ a.accessibilityAnalysis.score) (ha1 : a.accessibilityAnalysis.score ≤ 100) :
    0 ≤ calculateOverallScore a ∧ calculateOverallScore a ≤ 100 := by
  unfold calculateOverallScore
  constructor
  · apply jsRound_nonneg
    norm_num
    linarith
  · apply jsRound_le_100
    norm_num
    linarith

/-- The successful path of `analyze` computes one fetch and the pure
pipeline result. -/
lemma analyzeRun_ok_eq (html : List Char) (d : Doc) (url now : List Char)
    (s0 : AnalyzerState) :
    analyzeRun (.ok html d) url now s0 =
      ({ html := html, dom := some d, url := url }, 1,
        .ok (analyzeDoc d url now)) := rfl

/-- Claim C1: the overall score returned by `analyze` is the rounded
fixed-weight combination of the six module scores carried by the same
result: `round(0.25 c + 0.20 s + 0.15 p + 0.15 d + 0.15 y + 0.10 a)`. -/
theorem spec_c1_overall_score_formula (d : Doc) (url now : List Char) :
    (analyzeDoc d url now).overallScore =
      jsRound ( (0.25 : ℚ) * (analyzeDoc d url now).contentAnalysis.score
              + (0.20 : ℚ) * (analyzeDoc d url now).seoAnalysis.score
              + (0.15 : ℚ) * (analyzeDoc d url now).performanceAnalysis.score
              + (0.15 : ℚ) * (analyzeDoc d url now).designAnalysis.score
              + (0.15 : ℚ) * (analyzeDoc d url now).psychologyAnalysis.score
              + (0.10 : ℚ) * (analyzeDoc d url now).accessibilityAnalysis.score ) := by
  have hc : (analyzeDoc d url now).contentAnalysis = analyzeContent d := rfl
  have hs : (analyzeDoc d url now).seoAnalysis = analyzeSEO d url := rfl
  have hp : (analyzeDoc d url now).performanceAnalysis = analyzePerformance d := rfl
  have hd : (analyzeDoc d url now).designAnalysis = analyzeDesign d := rfl
  have hy : (analyzeDoc d url now).psychologyAnalysis = analyzePsychology d := rfl
  have ha : (analyzeDoc d url now).accessibilityAnalysis = analyzeAccessibility d := rfl
  rw [hc, hs, hp, hd, hy, ha]
  show calculateOverallScore _ = _
  unfold calculateOverallScore jsRound
  congr 1
  ring

/-- Claim C5: `analyze` performs exactly one fetch attempt and has a single
failure path: a failed fetch (or any thrown analysis step) yields exactly
one error, prefixed `Analysis failed: ` (with `Unknown error` for
non-`Error` throws), and no partial result; a successful fetch yields the
full result. -/
theorem spec_c5_single_failure_path (fetch : FetchOutcome)
    (url now : List Char) (s0 : AnalyzerState) :
    (analyzeRun fetch url now s0).2.1 = 1 ∧
    (analyzeRun fetch url now s0).2.2 =
      (match fetch with
       | .err m => .error (analysisFailedMessage m)
       | .ok _ d => .ok (analyzeDoc d url now)) := by
  cases fetch <;> exact ⟨rfl, rfl⟩

/-- Claim C6: the six analysis methods are read-only on the analyzer state
(`html`, `$`, `url` unchanged), so running them in any order produces, for
each method, the same outcome it would produce directly on the starting
state. -/
theorem spec_c6_read_only_modules (s : AnalyzerState) :
    (∀ m : ModuleId, (applyModule m s).1 = s) ∧
    (∀ order : List ModuleId,
      runModules order s = order.map fun m => (applyModule m s).2) := by
  have hfix : ∀ (m : ModuleId) (s' : AnalyzerState), (applyModule m s').1 = s' := by
    intro m s'
    cases m <;> cases h : s'.dom <;>
      simp [applyModule, analyzeContentM, analyzeSEOM, analyzePerformanceM,
        analyzeDesignM, analyzePsychologyM, analyzeAccessibilityM, h]
  refine ⟨fun m => hfix m s, fun order => ?_⟩
  induction order with
  | nil => rfl
  | cons m ms ih =>
    show (applyModule m s).2 :: runModules ms (applyModule m s).1 = _
    rw [hfix m s, ih, List.map_cons]

/-- Claim C7: the scorer is deterministic and stateless: two runs on the
same fetched document and url succeed and agree on every field of the
result except the timestamp, whatever the initial instance state. -/
theorem spec_c7_deterministic (html : List Char) (d : Doc)
    (url n1 n2 : List Char) (s1 s2 : AnalyzerState) :
    (analyzeRun (.ok html d) url n1 s1).2.2 = .ok (analyzeDoc d url n1) ∧
    Except.map eraseTimestamp (analyzeRun (.ok html d) url n1 s1).2.2 =
      Except.map eraseTimestamp (analyzeRun (.ok html d) url n2 s2).2.2 := by
  rw [analyzeRun_ok_eq, analyzeRun_ok_eq]
  exact ⟨rfl, rfl⟩

/-- Claim C8: each of the seven scores in the result is a function of the
parsed document alone: the six module scores and the overall score agree
with standalone per-document functions, independent of the url, the
timestamp and each other's results. -/
theorem spec_c8_scores_from_dom (d : Doc) (url now : List Char) :
    (analyzeDoc d url now).contentAnalysis.score = contentScoreOf d ∧
    (analyzeDoc d url now).seoAnalysis.score = seoScoreOf d ∧
    (analyzeDoc d url now).performanceAnalysis.score = performanceScoreOf d ∧
    (analyzeDoc d url now).designAnalysis.score = designScoreOf d ∧
    (analyzeDoc d url now).psychologyAnalysis.score = psychologyScoreOf d ∧
    (analyzeDoc d url now).accessibilityAnalysis.score = accessibilityScoreOf d ∧
    (analyzeDoc d url now).overallScore = overallScoreOf d := by
  exact ⟨rfl, rfl, rfl, rfl, rfl, rfl, rfl⟩

/-- Claim C9: every module score and the overall score of a successful
analysis lies in `[0, 100]`. -/
theorem spec_c9_score_bounds (d : Doc) (url now : List Char) :
    (0 ≤ (analyzeDoc d url now).contentAnalysis.score ∧
      (analyzeDoc d url now).contentAnalysis.score ≤ 100) ∧
    (0 ≤ (analyzeDoc d url now).seoAnalysis.score ∧
      (analyzeDoc d url now).seoAnalysis.score ≤ 100) ∧
    (0 ≤ (analyzeDoc d url now).performanceAnalysis.score ∧
      (analyzeDoc d url now).performanceAnalysis.score ≤ 100) ∧
    (0 ≤ (analyzeDoc d url now).designAnalysis.score ∧
      (analyzeDoc d url now).designAnalysis.score ≤ 100) ∧
    (0 ≤ (analyzeDoc d url now).psychologyAnalysis.score ∧
      (analyzeDoc d url now).psychologyAnalysis.score ≤ 100) ∧
    (0 ≤ (analyzeDoc d url now).accessibilityAnalysis.score ∧
      (analyzeDoc d url now).accessibilityAnalysis.score ≤ 100) ∧
    (0 ≤ (analyzeDoc d url now).overallScore ∧
      (analyzeDoc d url now).overallScore ≤ 100) := by
  have hc : 0 ≤ (analyzeContent d).score ∧ (analyzeContent d).score ≤ 100 :=
    calculateContentScore_bounds _
  have hs : 0 ≤ (analyzeSEO d url).score ∧ (analyzeSEO d url).score ≤ 100 :=
    calculateSEOScore_bounds _
  have hp : 0 ≤ (analyzePerformance d).score ∧ (analyzePerformance d).score ≤ 100 :=
    calculatePerformanceScore_bounds _
  have hd : 0 ≤ (analyzeDesign d).score ∧ (analyzeDesign d).score ≤ 100 :=
    calculateDesignScore_bounds _
  have hy : 0 ≤ (analyzePsychology d).score ∧ (analyzePsychology d).score ≤ 100 :=
    calculatePsychologyScore_bounds _
  have ha : 0 ≤ (analyzeAccessibility d).score ∧ (analyzeAccessibility d).score ≤ 100 := by
    refine calculateAccessibilityScore_bounds _ ?_ ?_
    · show (0 : ℚ) ≤
        (if d.interactiveCount > 0
         then (d.ariaLabeledCount : ℚ) / (d.interactiveCount : ℚ) * 100
         else 100)
      split_ifs <;> positivity
    · show (0 : ℚ) ≤
        (if d.imgCount > 0
         then (d.imgWithAltAttr : ℚ) / (d.imgCount : ℚ) * 100
         else 100)
      split_ifs <;> positivity
  exact ⟨hc, hs, hp, hd, hy, ha,
    calculateOverallScore_bounds _ hc.1 hc.2 hs.1 hs.2 hp.1 hp.2
      hd.1 hd.2 hy.1 hy.2 ha.1 ha.2⟩

/-- Claim C2 (counterexample): `calculateAccessibilityScore` is not a fixed
base constant plus weights gated on its boolean features and clamped: no
choice of base and gate weights reproduces it, because its base is the
(document-dependent) average of the aria and alt ratio scores. -/
theorem spec_c2_counterexample :
    ¬ ∃ base wSem wLang : ℚ, ∀ p : AccessibilityScoreParams,
      calculateAccessibilityScore p =
        min 100 (base + (if p.hasSemanticHTML then wSem else 0)
                      + (if p.hasLangAttr then wLang else 0)) := by
  rintro ⟨base, wSem, wLang, h⟩
  have e1 : calculateAccessibilityScore ⟨0, 0, false, false⟩ = 0 := by
    norm_num [calculateAccessibilityScore, jsRound, min_def]
  have e2 : calculateAccessibilityScore ⟨100, 100, false, false⟩ = 100 := by
    norm_num [calculateAccessibilityScore, jsRound, min_def]
  have h1 := h ⟨0, 0, false, false⟩
  have h2 := h ⟨100, 100, false, false⟩
  rw [e1] at h1
  rw [e2] at h2
  simp only [Bool.false_eq_true, if_false, add_zero] at h1 h2
  rw [← h1] at h2
  norm_num at h2

/-- Claim C2 (amended): the content, SEO, performance, design and
psychology sub-scores are each a fixed base constant plus a sum of fixed
weights gated by boolean or count-threshold features, capped at 100 (and
floored at 0 for performance); the accessibility sub-score instead starts
from the document-dependent average of the aria and alt ratio scores plus
its two gated weights, rounded, and capped at 100. -/
theorem spec_c2_gated_linear_scores :
    (∀ p : ContentScoreParams, calculateContentScore p =
      min 100 (70 + (if p.wordCount ≥ 300 then (10 : ℚ) else 0)
                  + (if p.readabilityScore ≥ 60 then (10 : ℚ) else 0)
                  + (if p.spellingIssues = 0 then (5 : ℚ) else 0)
                  + (if p.hasClearValue then (5 : ℚ) else 0))) ∧
    (∀ p : SEOScoreParams, calculateSEOScore p =
      min 100 (50 + (if p.title ≥ 30 ∧ p.title ≤ 60 then (15 : ℚ) else 0)
                  + (if p.description ≥ 120 then (15 : ℚ) else 0)
                  + (if p.properStructure then (10 : ℚ) else 0)
                  + (if p.schemaMarkup then (5 : ℚ) else 0)
                  + (if p.mobileOptimized then (5 : ℚ) else 0))) ∧
    (∀ p : PerformanceScoreParams, calculatePerformanceScore p =
      max 0 (min 100 (80 + (if p.scripts > 10 then (-10 : ℚ) else 0)
                         + (if p.hasMinifiedCSS then (5 : ℚ) else 0)
                         + (if p.hasMinifiedJS then (5 : ℚ) else 0)
                         + (if p.hasLazyLoading then (10 : ℚ) else 0)))) ∧
    (∀ p : DesignScoreParams, calculateDesignScore p =
      min 100 (60 + (if p.visualHierarchy ≥ 70 then (15 : ℚ) else 0)
                  + (if p.whitespace ≥ 70 then (10 : ℚ) else 0)
                  + (if p.readableSize then (10 : ℚ) else 0)
                  + (if p.fontVariety ≥ 3 ∧ p.fontVariety ≤ 6 then (5 : ℚ) else 0))) ∧
    (∀ p : PsychologyScoreParams, calculatePsychologyScore p =
      min 100 (50 + (if p.trustSignals ≥ 3 then (20 : ℚ) else 0)
                  + (if p.ctaCount ≥ 1 then (10 : ℚ) else 0)
                  + (if p.ctaAboveFold then (10 : ℚ) else 0)
                  + (if p.hasSocialProof then (10 : ℚ) else 0))) ∧
    (∀ p : AccessibilityScoreParams, calculateAccessibilityScore p =
      min 100 ((jsRound ((p.ariaScore + p.altScore) / 2
                  + (if p.hasSemanticHTML then (10 : ℚ) else 0)
                  + (if p.hasLangAttr then (5 : ℚ) else 0)) : ℤ) : ℚ)) := by
  refine ⟨fun p => ?_, fun p => ?_, fun p => ?_, fun p => ?_, fun p => ?_, fun p => ?_⟩
  · simp only [calculateContentScore]
    split_ifs <;> norm_num
  · simp only [calculateSEOScore]
    split_ifs <;> norm_num
  · simp only [calculatePerformanceScore]
    split_ifs <;> norm_num
  · simp only [calculateDesignScore]
    split_ifs <;> norm_num
  · simp only [calculatePsychologyScore]
    split_ifs <;> norm_num
  · simp only [calculateAccessibilityScore]
    split_ifs <;> norm_num

/-- One denylist entry of `detectSpellingIssues`, re-expressed through the
first-occurrence index. -/
lemma spell_item (w c lower : List Char) (hc : getCorrection w = c) :
    (if includesSub w lower then
      some (⟨w, getCorrection w, (indexOfSub w lower).getD 0⟩ : SpellingIssue)
     else none) =
      (indexOfSub w lower).map fun i => ⟨w, c, i⟩ := by
  cases h : indexOfSub w lower <;>
    simp [includesSub, h, hc]

/-- Claim C3: the detected spelling issues are exactly one entry per
denylist word occurring case-insensitively in the text, carrying the word,
its fixed correction, and the index of its first case-insensitive
occurrence; a text containing none of the five yields `[]`, and no other
word is ever reported. -/
theorem spec_c3_spelling_denylist (text : List Char) :
    detectSpellingIssues text =
      ([ ("recieve".toList, "receive".toList),
         ("occured".toList, "occurred".toList),
         ("seperate".toList, "separate".toList),
         ("definately".toList, "definitely".toList),
         ("alot".toList, "a lot".toList) ] :
        List (List Char × List Char)).filterMap
        (fun pr => (indexOfSub pr.1 (toLowerList text)).map
          fun i => ⟨pr.1, pr.2, i⟩) := by
  have g1 : getCorrection ("recieve".toList) = "receive".toList := by decide
  have g2 : getCorrection ("occured".toList) = "occurred".toList := by decide
  have g3 : getCorrection ("seperate".toList) = "separate".toList := by decide
  have g4 : getCorrection ("definately".toList) = "definitely".toList := by decide
  have g5 : getCorrection ("alot".toList) = "a lot".toList := by decide
  simp only [detectSpellingIssues, commonMisspellings, List.filterMap_cons,
    List.filterMap_nil]
  rw [spell_item _ _ _ rfl, spell_item _ _ _ rfl, spell_item _ _ _ rfl,
    spell_item _ _ _ rfl, spell_item _ _ _ rfl]
  simp only [g1, g2, g3, g4, g5]

/-- Claim C4 (counterexample): on a text of 15 whitespace-separated tokens
beginning with a space (and with no sentence punctuation), the claimed
ratio `tokens / max(sentences, 1) = 15 ≤ 15` predicts 90, but
`calculateReadability` returns 75: the leading whitespace contributes an
extra (empty) segment to the split, so the code divides 16 by 1. -/
theorem spec_c4_counterexample :
    ((jsSplitRuns isWsChar c4Text).filter fun w => w.length > 0).length = 15 ∧
    (jsSplitRuns isSentenceEnd c4Text).length = 1 ∧
    ((15 : ℚ) / (max 1 1 : ℕ) ≤ 15) ∧
    calculateReadability c4Text = 75 ∧
    calculateReadability c4Text ≠ 90 := by
  have hw : (jsSplitRuns isWsChar c4Text).length = 16 := by decide
  have hs : (jsSplitRuns isSentenceEnd c4Text).length = 1 := by decide
  have h75 : calculateReadability c4Text = 75 := by
    simp only [calculateReadability, hw, hs]
    norm_num
  refine ⟨by decide, hs, by norm_num, h75, ?_⟩
  rw [h75]
  norm_num

/-- Claim C4 (amended): `calculateReadability` buckets on
`words / max(sentences, 1)` where `words` and `sentences` are the numbers
of segments of the JavaScript splits on whitespace runs and on `[.!?]`
runs (leading/trailing separator runs contribute empty segments, and the
empty text counts as one segment); its value is one of 90, 75, 60, 40 and
is determined by the two segment counts. -/
theorem spec_c4_readability_amended (t u : List Char) :
    (calculateReadability t =
      (if ((jsSplitRuns isWsChar t).length : ℚ)
            ≤ 15 * ((max (jsSplitRuns isSentenceEnd t).length 1 : ℕ) : ℚ) then 90
       else if ((jsSplitRuns isWsChar t).length : ℚ)
            ≤ 20 * ((max (jsSplitRuns isSentenceEnd t).length 1 : ℕ) : ℚ) then 75
       else if ((jsSplitRuns isWsChar t).length : ℚ)
            ≤ 25 * ((max (jsSplitRuns isSentenceEnd t).length 1 : ℕ) : ℚ) then 60
       else 40)) ∧
    (calculateReadability t = 90 ∨ calculateReadability t = 75 ∨
      calculateReadability t = 60 ∨ calculateReadability t = 40) ∧
    ((jsSplitRuns isWsChar t).length = (jsSplitRuns isWsChar u).length →
      (jsSplitRuns isSentenceEnd t).length = (jsSplitRuns isSentenceEnd u).length →
      calculateReadability t = calculateReadability u) := by
  have hpos : (0 : ℚ) < ((max (jsSplitRuns isSentenceEnd t).length 1 : ℕ) : ℚ) := by
    have h1 : 1 ≤ max (jsSplitRuns isSentenceEnd t).length 1 := le_max_right _ _
    exact_mod_cast Nat.lt_of_lt_of_le Nat.zero_lt_one h1
  refine ⟨?_, ?_, ?_⟩
  · simp only [calculateReadability, div_le_iff₀ hpos]
  · simp only [calculateReadability]
    split_ifs <;> simp
  · intro h1 h2
    simp only [calculateReadability, h1, h2]

/-- Witness for the amended C4: two distinct texts with equal segment
counts get equal readability scores. -/
theorem spec_c4_readability_witness :
    (jsSplitRuns isWsChar ("a b".toList)).length
        = (jsSplitRuns isWsChar ("c d".toList)).length ∧
    (jsSplitRuns isSentenceEnd ("a b".toList)).length
        = (jsSplitRuns isSentenceEnd ("c d".toList)).length ∧
    calculateReadability ("a b".toList) = calculateReadability ("c d".toList) :=
  ⟨by decide, by decide,
    (spec_c4_readability_amended ("a b".toList) ("c d".toList)).2.2
      (by decide) (by decide)⟩

/-- With at most five reported spelling issues, every generated critical
issue and quick win is free, and the insight counters collapse to plain
lengths. -/
lemma generateRecommendations_free (a : Analyses)
    (h : a.contentAnalysis.spellingIssues.length ≤ 5) :
    ((generateRecommendations a).criticalIssues.all fun i => !i.premium) = true ∧
    ((generateRecommendations a).quickWins.all fun r => !r.premium) = true ∧
    countFreeInsights (generateRecommendations a).criticalIssues
        (generateRecommendations a).quickWins =
      (generateRecommendations a).criticalIssues.length
        + (generateRecommendations a).quickWins.length ∧
    countPremiumInsights (generateRecommendations a).criticalIssues
        (generateRecommendations a).quickWins
        (generateRecommendations a).strategicImprovements =
      (generateRecommendations a).strategicImprovements.length := by
  have hnp : ¬ a.contentAnalysis.spellingIssues.length > 5 := by omega
  simp only [generateRecommendations, countFreeInsights, countPremiumInsights]
  by_cases h1 : a.seoAnalysis.metaTags.title.present <;>
  by_cases h2 : a.seoAnalysis.metaTags.description.present <;>
  by_cases h3 : a.contentAnalysis.spellingIssues.length > 0 <;>
  by_cases h4 : a.performanceAnalysis.optimizations.lazyLoading <;>
  by_cases h5 : a.psychologyAnalysis.score < 70 <;>
  by_cases h6 : a.designAnalysis.score < 70 <;>
  simp [h1, h2, h3, h4, h5, h6, hnp, issueMissingTitle, issueMissingDescription,
    quickWinSpelling, quickWinLazyLoading, strategicTrust, strategicVisual]

/-- Claim C10: in every analysis result, all critical issues and quick wins
are free (the spelling quick win's premium flag needs more than 5 issues
but the stored list is truncated to 5), so `freeInsightsCount` is the sum
of the two list lengths and `premiumInsightsAvailable` is the number of
strategic improvements. -/
theorem spec_c10_free_premium_counts (d : Doc) (url now : List Char) :
    ((analyzeDoc d url now).criticalIssues.all fun i => !i.premium) = true ∧
    ((analyzeDoc d url now).quickWins.all fun r => !r.premium) = true ∧
    (analyzeDoc d url now).freeInsightsCount =
      (analyzeDoc d url now).criticalIssues.length
        + (analyzeDoc d url now).quickWins.length ∧
    (analyzeDoc d url now).premiumInsightsAvailable =
      (analyzeDoc d url now).strategicImprovements.length := by
  have h : (analyzeContent d).spellingIssues.length ≤ 5 := by
    show ((detectSpellingIssues d.bodyText).take 5).length ≤ 5
    simp only [List.length_take]
    omega
  exact generateRecommendations_free _ h
